import Mathlib

/-!
# Verification of the MIOpen solver-selection and autotuning core

This file is a shallow embedding, in Lean 4, of the parts of the repository
that the specification's claims are about:

* `src/solver/cat/forward_cat.cpp` — the `CatForward` solver: its
  applicability predicate and the kernel-fusion selection of `GetSolution`;
* `src/solver/conv_hip_implicit_gemm_grouped_fwd_xdlops.cpp` — the
  `ConvHipImplicitGemmGroupFwdXdlops` solver and its performance
  configuration (heuristic initialization, candidate iteration,
  validity, equality, applicability);
* `src/include/miopen/db_preload.hpp` — the database-preload coordination
  state.

Modelling conventions:

* Machine integers that can never overflow in the modelled ranges are
  `Nat`/`Int`.
* C++ code that throws is modelled with `Except`; an out-of-bounds
  `std::vector::operator[]` access (undefined behaviour) is modelled as
  `Option.none`.
* `assert(...)` is a no-op in release builds, so an assert is not itself
  modelled as a control-flow effect; where an assert's condition is violated
  on some input this is noted in comments.
* The composable-kernel backing library (`GetInstances`,
  `IsSupportedArgument`, `GetTypeString`) is an external collaborator; it is
  modelled as an explicit environment `CKEnv`: a list of instances per data
  type, each with its type string and a support predicate over the problem
  (the argument pointer handed to `IsSupportedArgument` is a deterministic
  function of the problem description).
* Device timing of a trial is an external collaborator; it is modelled as
  an explicit cost oracle.
-/

/-- The `miopenDataType_t` enumeration (the cases dispatched on by the
grouped-forward-xdlops solver). -/
inductive DataType where
  | half
  | float
  | int8
  | int32
  | int8x4
  | bfloat16
  | double
deriving DecidableEq, Repr

/-! ## The cat solver (`src/solver/cat/forward_cat.cpp`) -/

/-- The error raised by `MIOPEN_THROW(miopenStatusBadParm, msg)`. -/
inductive MiopenError where
  | badParm (msg : String)
deriving DecidableEq, Repr

/-- The fields of `miopen::cat::ProblemDescription` consulted by
`CatForward::IsApplicable` and the kernel selection of
`CatForward::GetSolution`: the tensor count `GetXCount()`, the boolean
structural predicates, and `GetYDesc().GetElementSize()`. -/
structure CatProblem where
  xCount : Nat
  isSameType : Bool
  isRightDim : Bool
  isRightLength : Bool
  isAllPacked : Bool
  yElementSize : Nat
deriving DecidableEq, Repr

/-- The fields of `ExecutionContext` visible to the cat solver
(`IsApplicable` ignores the context entirely; `GetSolution` reads the
stream's compute-unit count for launch geometry only). -/
structure ExecutionContext where
  maxComputeUnits : Nat
deriving DecidableEq, Repr

/-- `IsUnderXCountLimit` (forward_cat.cpp:45-52): throws
`miopenStatusBadParm` when the tensor count exceeds
`MAX_TENSOR_X_COUNT = 8`, and otherwise returns `true`.  (Note: the
function can never return `false`.) -/
def IsUnderXCountLimit (problem : CatProblem) : Except MiopenError Bool :=
  if problem.xCount > 8 then
    .error (.badParm "CatForward: Exceeded the number of tensors.")
  else
    .ok true

/-- `IsImprovementOverROCm` (forward_cat.cpp:54-62): `false` when the
output element count is below `MIN_OUTPUT_TENSOR_SIZE = 1000000`. -/
def IsImprovementOverROCm (problem : CatProblem) : Bool :=
  if problem.yElementSize < 1000000 then false else true

/-- `CatForward::IsApplicable` (forward_cat.cpp:64-80): the chain of early
`return false` checks.  Because `IsUnderXCountLimit` throws instead of
returning `false`, the whole predicate is `Except`-valued: on a problem
with more than 8 tensors it propagates the exception. -/
def CatForward.IsApplicable (_context : ExecutionContext) (problem : CatProblem) :
    Except MiopenError Bool := do
  let underLimit ← IsUnderXCountLimit problem
  if !underLimit then return false
  if !problem.isSameType then return false
  if !problem.isRightDim then return false
  if !problem.isRightLength then return false
  if !problem.isAllPacked then return false
  if !(IsImprovementOverROCm problem) then return false
  return true

/-- The fusion-size loop of `CatForward::GetSolution`
(forward_cat.cpp:140-144): `fusion_size = 2; while(fusion_size < xCount)
fusion_size *= 2;`.  The loop is modelled with explicit fuel; starting
from 2 the value doubles past `xCount` in well under `xCount` iterations,
so fuel `xCount` never runs out. -/
def fusionLoop (xCount : Nat) : Nat → Nat → Nat
  | 0, fusion => fusion
  | fuel + 1, fusion =>
      if fusion < xCount then fusionLoop xCount fuel (2 * fusion) else fusion

/-- `fusion_size` as computed by `CatForward::GetSolution` for a problem
with `xCount` input tensors. -/
def fusionSize (xCount : Nat) : Nat := fusionLoop xCount xCount 2

/-- The kernel-name selection of `CatForward::GetSolution`
(forward_cat.cpp:146-243): the `switch(fusion_size)` assigns
`kernel.kernel_name`; in the `default` branch the name is left at the
`KernelInfo` default (empty). -/
def catFwdKernelName (xCount : Nat) : String :=
  match fusionSize xCount with
  | 2 => "Cat2FwdPacked"
  | 4 => "Cat4FwdPacked"
  | 8 => "Cat8FwdPacked"
  | _ => ""

/-! ## The grouped-forward-xdlops solver
(`src/solver/conv_hip_implicit_gemm_grouped_fwd_xdlops.cpp`) -/

/-- The fields of the convolution `ProblemDescription` consulted by
`ConvHipImplicitGemmGroupFwdXdlops::IsApplicable`, by the performance
configuration, and (through `CKArgsGFwd`) by the stride check of
`CheckCKApplicability`: the three data types, direction, rank, layout, and
the two adjusted convolution strides (`GetAdjustedConvolutionStrideH/W`,
the `args.strides` array).  All remaining `CKArgsGFwd` fields only feed
the argument pointer handed to the backing library and are absorbed into
the instance support predicate of `CKEnv`. -/
structure ConvProblem where
  inDataType : DataType
  weightsDataType : DataType
  outDataType : DataType
  isForward : Bool
  is2d : Bool
  isLayoutNHWC : Bool
  adjStrideH : Int
  adjStrideW : Int
deriving DecidableEq, Repr

/-- One backing-library device-operation instance, as seen through the
pointer interface used by the solver: its `GetTypeString()` and the result
of `IsSupportedArgument` on the argument built deterministically from a
given problem. -/
structure CKInstance where
  typeString : String
  isSupportedArgument : ConvProblem → Bool

/-- The composable-kernel backing library as an environment:
`DeviceOpGFwdPtrs<DataType>::GetInstances()` for each data type. -/
structure CKEnv where
  instances : DataType → List CKInstance

/-- The fields of the execution context consulted by
`ConvHipImplicitGemmGroupFwdXdlops::IsApplicable`: the device name and the
two debug environment-variable gates. -/
structure ConvContext where
  deviceName : String
  debugGroupConvDisabled : Bool
  debugConvDeterministicEnabled : Bool
deriving DecidableEq, Repr

/-- The tunable performance configuration
`PerformanceConfigHipImplicitGemmGroupFwdXdlops`: `index`, `kernel_id` and
`valid_kernels` (conv_hip_implicit_gemm_grouped_fwd_xdlops.cpp together
with its header declaration). -/
structure PerformanceConfigHipImplicitGemmGroupFwdXdlops where
  index : Nat
  kernel_id : String
  valid_kernels : List String
deriving DecidableEq, Repr

/-- The default-constructed configuration (header: `index` 0, empty
`kernel_id`, no enumerated kernels). -/
def PerformanceConfigHipImplicitGemmGroupFwdXdlops.default :
    PerformanceConfigHipImplicitGemmGroupFwdXdlops :=
  { index := 0, kernel_id := "", valid_kernels := [] }

/-- The kernels collected by the loop of
`PerformanceConfigHipImplicitGemmGroupFwdXdlops::Init` (lines 136-161):
the type strings of the instances whose `IsSupportedArgument` accepts the
problem's argument, in instance order. -/
def computeValidKernels (env : CKEnv) (dt : DataType) (problem : ConvProblem) :
    List String :=
  ((env.instances dt).filter (fun inst => inst.isSupportedArgument problem)).map
    (fun inst => inst.typeString)

/-- `PerformanceConfigHipImplicitGemmGroupFwdXdlops::Init<DataType>`
(lines 130-165): appends the supported instances' type strings to
`valid_kernels`, then unconditionally sets `index = 0` and
`kernel_id = valid_kernels[0]`.  When no instance is supported and the
configuration started empty, `assert(!valid_kernels.empty())` is violated
and `valid_kernels[0]` reads out of bounds on an empty vector; that path
is modelled as `none`. -/
def PerformanceConfigHipImplicitGemmGroupFwdXdlops.Init (env : CKEnv)
    (dt : DataType) (problem : ConvProblem)
    (c : PerformanceConfigHipImplicitGemmGroupFwdXdlops) :
    Option PerformanceConfigHipImplicitGemmGroupFwdXdlops :=
  match c.valid_kernels ++ computeValidKernels env dt problem with
  | [] => none
  | k0 :: tl => some { index := 0, kernel_id := k0, valid_kernels := k0 :: tl }

/-- `PerformanceConfigHipImplicitGemmGroupFwdXdlops::HeuristicInit`
(lines 323-339): dispatches on the input data type; `Init<half_t>` for
half, `Init<float>` for float, and does nothing for every other type. -/
def PerformanceConfigHipImplicitGemmGroupFwdXdlops.HeuristicInit (env : CKEnv)
    (problem : ConvProblem)
    (c : PerformanceConfigHipImplicitGemmGroupFwdXdlops) :
    Option PerformanceConfigHipImplicitGemmGroupFwdXdlops :=
  match problem.inDataType with
  | .half => c.Init env .half problem
  | .float => c.Init env .float problem
  | _ => some c

/-- The list `HeuristicInit` would put into `valid_kernels` of a
default-constructed configuration: the supported kernels for half/float
problems and the empty list for every other input data type. -/
def heuristicKernels (env : CKEnv) (problem : ConvProblem) : List String :=
  match problem.inDataType with
  | .half => computeValidKernels env .half problem
  | .float => computeValidKernels env .float problem
  | _ => []

/-- `PerformanceConfigHipImplicitGemmGroupFwdXdlops::SetNextValue`
(lines 341-357): on an empty `valid_kernels` it runs `HeuristicInit` and
returns `true` (the subsequent `assert(!valid_kernels.empty())` is a
release no-op and is violated exactly when `HeuristicInit` was a no-op);
otherwise it advances `index` and refreshes `kernel_id` while a next entry
exists, returning `false` when the list is exhausted.  The returned pair
is (return value, updated configuration); `none` propagates the
out-of-bounds path of `Init`. -/
def PerformanceConfigHipImplicitGemmGroupFwdXdlops.SetNextValue (env : CKEnv)
    (problem : ConvProblem)
    (c : PerformanceConfigHipImplicitGemmGroupFwdXdlops) :
    Option (Bool × PerformanceConfigHipImplicitGemmGroupFwdXdlops) :=
  if c.valid_kernels.isEmpty then
    (c.HeuristicInit env problem).map (fun c2 => (true, c2))
  else if c.index + 1 < c.valid_kernels.length then
    some (true,
      { c with
        index := c.index + 1,
        kernel_id := c.valid_kernels.getD (c.index + 1) "" })
  else
    some (false, c)

/-- `PerformanceConfigHipImplicitGemmGroupFwdXdlops::IsValidValue`
(lines 359-362): `index < valid_kernels.size()`. -/
def PerformanceConfigHipImplicitGemmGroupFwdXdlops.IsValidValue
    (c : PerformanceConfigHipImplicitGemmGroupFwdXdlops) : Bool :=
  c.index < c.valid_kernels.length

/-- `PerformanceConfigHipImplicitGemmGroupFwdXdlops::operator==`
(lines 384-388): compares `kernel_id` only. -/
def PerformanceConfigHipImplicitGemmGroupFwdXdlops.eqOp
    (c : PerformanceConfigHipImplicitGemmGroupFwdXdlops)
    (other : PerformanceConfigHipImplicitGemmGroupFwdXdlops) : Bool :=
  c.kernel_id == other.kernel_id

/-- Modelled from the spec: the serialization of a winning configuration
into the `PerformanceRecord` blob (the `PerfConfigBase` serialization of
this configuration lives in a header that is not under `src/`).  The spec
treats the record as the solver's serialized tunable value; for this
solver the tunable content is the chosen kernel identifier. -/
def PerformanceConfigHipImplicitGemmGroupFwdXdlops.serialize
    (c : PerformanceConfigHipImplicitGemmGroupFwdXdlops) : String :=
  c.kernel_id

/-- `ConvHipImplicitGemmGroupFwdXdlops::CheckCKApplicability<DataType>`
(lines 207-240): first requires every entry of `args.strides` (the two
adjusted convolution strides) to equal 1, then asks whether any backing
library instance supports the problem's argument. -/
def ConvHipImplicitGemmGroupFwdXdlops.CheckCKApplicability (env : CKEnv)
    (dt : DataType) (problem : ConvProblem) : Bool :=
  if ¬(problem.adjStrideH = 1 ∧ problem.adjStrideW = 1) then
    false
  else
    (env.instances dt).any (fun inst => inst.isSupportedArgument problem)

/-- The evaluation trace of
`ConvHipImplicitGemmGroupFwdXdlops::IsApplicable`: the boolean result,
and whether evaluation reached the device-name allow-list comparison
(`archQueried`) and the backing-library support query
(`CheckCKApplicability`, `ckQueried`). -/
structure ApplicabilityTrace where
  result : Bool
  archQueried : Bool
  ckQueried : Bool
deriving DecidableEq, Repr

/-- `ConvHipImplicitGemmGroupFwdXdlops::IsApplicable` (lines 413-450),
instrumented with the trace of which late checks were reached: the two
debug gates, the data-type agreement check, direction, rank, layout, then
the architecture allow-list, then `CheckCKApplicability` dispatched on the
input data type (only half and float reach the query; every other type
falls through to `false`). -/
def ConvHipImplicitGemmGroupFwdXdlops.IsApplicableTraced (env : CKEnv)
    (ctx : ConvContext) (problem : ConvProblem) : ApplicabilityTrace :=
  if ctx.debugGroupConvDisabled = true then
    { result := false, archQueried := false, ckQueried := false }
  else if ctx.debugConvDeterministicEnabled = true then
    { result := false, archQueried := false, ckQueried := false }
  else if ¬(problem.inDataType = problem.weightsDataType ∧
            problem.weightsDataType = problem.outDataType ∧
            problem.inDataType = problem.outDataType) then
    { result := false, archQueried := false, ckQueried := false }
  else if problem.isForward = false then
    { result := false, archQueried := false, ckQueried := false }
  else if problem.is2d = false then
    { result := false, archQueried := false, ckQueried := false }
  else if problem.isLayoutNHWC = false then
    { result := false, archQueried := false, ckQueried := false }
  else if ¬(ctx.deviceName = "gfx908" ∨ ctx.deviceName = "gfx90a") then
    { result := false, archQueried := true, ckQueried := false }
  else
    match problem.inDataType with
    | .half =>
        { result := ConvHipImplicitGemmGroupFwdXdlops.CheckCKApplicability env .half problem,
          archQueried := true, ckQueried := true }
    | .float =>
        { result := ConvHipImplicitGemmGroupFwdXdlops.CheckCKApplicability env .float problem,
          archQueried := true, ckQueried := true }
    | _ => { result := false, archQueried := true, ckQueried := false }

/-- `ConvHipImplicitGemmGroupFwdXdlops::IsApplicable` proper: the result
component of the traced evaluation. -/
def ConvHipImplicitGemmGroupFwdXdlops.IsApplicable (env : CKEnv)
    (ctx : ConvContext) (problem : ConvProblem) : Bool :=
  (ConvHipImplicitGemmGroupFwdXdlops.IsApplicableTraced env ctx problem).result

/-! ### Iterating `SetNextValue` from the default configuration -/

/-- The configuration reached after `k` calls to `SetNextValue`, starting
from a freshly default-constructed configuration (`none` once a call hits
the out-of-bounds path). -/
def iterState (env : CKEnv) (problem : ConvProblem) :
    Nat → Option PerformanceConfigHipImplicitGemmGroupFwdXdlops
  | 0 => some PerformanceConfigHipImplicitGemmGroupFwdXdlops.default
  | k + 1 =>
      match iterState env problem k with
      | none => none
      | some c =>
          match c.SetNextValue env problem with
          | none => none
          | some (_, c2) => some c2

/-- The boolean returned by the `(k+1)`-st call to `SetNextValue` in the
iteration of `iterState` (`none` once a call hits the out-of-bounds
path). -/
def callResult (env : CKEnv) (problem : ConvProblem) (k : Nat) : Option Bool :=
  match iterState env problem k with
  | none => none
  | some c => (c.SetNextValue env problem).map Prod.fst

/-! ## Database-preload coordination (`src/include/miopen/db_preload.hpp`) -/

/-- `DbPreloadStates` (db_preload.hpp:43-54), restricted to the field the
one-shot guard lives in: the `started_loading` atomic flag.  (The mutex
and the per-path futures map coordinate individual loads and are
orthogonal to the one-shot guard.) -/
structure DbPreloadStates where
  started_loading : Bool
deriving DecidableEq, Repr

/-- Modelled from the spec: the body of `TryStartPreloadingDbs` is not
under `src/` (db_preload.hpp:77-78 only declares it).  Per the spec,
`TryStartAll` runs the preload action at most once per process, guarded by
the one-shot `started_loading` flag: if the flag is already set the call
does nothing, otherwise it sets the flag and runs the action.  The second
component records whether the preload action was invoked by this call. -/
def TryStartPreloadingDbs (s : DbPreloadStates) : DbPreloadStates × Bool :=
  if s.started_loading then (s, false)
  else ({ started_loading := true }, true)

/-- `n` successive calls to `TryStartPreloadingDbs` on the same state:
the final state and the total number of times the preload action was
invoked. -/
def runPreloads (s : DbPreloadStates) : Nat → DbPreloadStates × Nat
  | 0 => (s, 0)
  | n + 1 =>
      let (s1, k) := runPreloads s n
      let (s2, invoked) := TryStartPreloadingDbs s1
      (s2, k + (if invoked then 1 else 0))

/-! ## The autotune search (`GenericSearch`) -/

/-- The sequence of configurations produced by repeatedly calling
`SetNextValue` from a given configuration, as long as it keeps returning
`true`, with explicit fuel. -/
def nextStates (env : CKEnv) (problem : ConvProblem) :
    Nat → PerformanceConfigHipImplicitGemmGroupFwdXdlops →
    List PerformanceConfigHipImplicitGemmGroupFwdXdlops
  | 0, _ => []
  | fuel + 1, c =>
      match c.SetNextValue env problem with
      | some (true, c2) => c2 :: nextStates env problem fuel c2
      | _ => []

/-- The candidate trace of one search: the configurations visited by
`SetNextValue` starting from the default configuration.  The fuel bound is
one past the heuristic kernel count, which covers every candidate the
iteration can reach. -/
def searchTrace (env : CKEnv) (problem : ConvProblem) :
    List PerformanceConfigHipImplicitGemmGroupFwdXdlops :=
  nextStates env problem ((heuristicKernels env problem).length + 1)
    PerformanceConfigHipImplicitGemmGroupFwdXdlops.default

/-- One step of the best-so-far comparison of the search loop: skip a
candidate failing the validity check (no trial, no cost), skip a candidate
whose trial fails, and otherwise replace the best exactly when the new
cost is strictly smaller (ties keep the earlier-found candidate). -/
def stepBest
    (validOf : PerformanceConfigHipImplicitGemmGroupFwdXdlops → Bool)
    (trialCost : PerformanceConfigHipImplicitGemmGroupFwdXdlops → Option Nat)
    (best : Option (PerformanceConfigHipImplicitGemmGroupFwdXdlops × Nat))
    (c : PerformanceConfigHipImplicitGemmGroupFwdXdlops) :
    Option (PerformanceConfigHipImplicitGemmGroupFwdXdlops × Nat) :=
  if validOf c = false then best
  else
    match trialCost c with
    | none => best
    | some t =>
        match best with
        | none => some (c, t)
        | some (b, tb) => if t < tb then some (c, t) else some (b, tb)

/-- Modelled from the spec: `GenericSearch` (miopen/generic_search.hpp) is
not under `src/`; `ConvHipImplicitGemmGroupFwdXdlops::Search`
(conv_hip_implicit_gemm_grouped_fwd_xdlops.cpp:405-411) delegates to it.
Per the spec, the search walks the candidate sequence produced by
`SetNextValue` from the heuristic starting point, skips candidates failing
the validity predicate, measures each remaining candidate through the
execution collaborator (`trialCost`, the explicit timing oracle), and
keeps the best-so-far under strict less-than comparison.  It returns the
winning configuration, or `none` when no candidate ever passed
validity and execution. -/
def ConvHipImplicitGemmGroupFwdXdlops.Search (env : CKEnv)
    (problem : ConvProblem)
    (validOf : PerformanceConfigHipImplicitGemmGroupFwdXdlops → Bool)
    (trialCost : PerformanceConfigHipImplicitGemmGroupFwdXdlops → Option Nat) :
    Option PerformanceConfigHipImplicitGemmGroupFwdXdlops :=
  ((searchTrace env problem).foldl (stepBest validOf trialCost) none).map Prod.fst

/-! ## Concrete fixtures used by witnesses and counterexamples -/

/-- A cat problem with nine input tensors (every other check passing). -/
def catProblem9 : CatProblem :=
  { xCount := 9, isSameType := true, isRightDim := true, isRightLength := true,
    isAllPacked := true, yElementSize := 2000000 }

/-- A backing-library environment with no instances at all. -/
def envE : CKEnv := ⟨fun _ => []⟩

/-- A backing-library environment with a single instance that supports no
problem. -/
def envNoSupp : CKEnv :=
  ⟨fun _ => [{ typeString := "DeviceGroupedConvFwdInst0",
               isSupportedArgument := fun _ => false }]⟩

/-- A backing-library environment with two instances that support every
problem. -/
def envW : CKEnv :=
  ⟨fun _ => [{ typeString := "instA", isSupportedArgument := fun _ => true },
             { typeString := "instB", isSupportedArgument := fun _ => true }]⟩

/-- A well-formed half-precision forward 2-d NHWC problem with unit
strides. -/
def pHalfW : ConvProblem :=
  { inDataType := .half, weightsDataType := .half, outDataType := .half,
    isForward := true, is2d := true, isLayoutNHWC := true,
    adjStrideH := 1, adjStrideW := 1 }

/-- A problem whose input data type (int8) is handled by no heuristic
branch. -/
def pInt8 : ConvProblem :=
  { pHalfW with inDataType := .int8, weightsDataType := .int8, outDataType := .int8 }

/-- A problem whose input data type (double) is handled by no heuristic
branch. -/
def pDouble : ConvProblem :=
  { pHalfW with inDataType := .double, weightsDataType := .double, outDataType := .double }

/-- A problem failing the 2-d structural check. -/
def pNot2d : ConvProblem := { pHalfW with is2d := false }

/-- A problem with a non-unit adjusted stride. -/
def pStride2 : ConvProblem := { pHalfW with adjStrideH := 2 }

/-- A context on an allow-listed device with both debug gates off. -/
def ctxW : ConvContext :=
  { deviceName := "gfx908", debugGroupConvDisabled := false,
    debugConvDeterministicEnabled := false }

/-! ## Claim theorems -/

/-- Claim C1 (code_bug evidence): `CatForward::IsApplicable` does not
return `false` on a problem whose tensor count exceeds the supported
limit — it propagates the `miopenStatusBadParm` exception thrown by
`IsUnderXCountLimit`, contradicting the never-throw contract of
applicability checks (and making the caller's `return false` branch dead
code). -/
theorem catForward_IsApplicable_throws_on_excess_tensors :
    CatForward.IsApplicable { maxComputeUnits := 64 } catProblem9 =
      .error (.badParm "CatForward: Exceeded the number of tensors.") := rfl

/-- Claim C3 (code_bug evidence): on a half-precision problem for which no
backing-library instance is supported, heuristic initialization produces
an empty `valid_kernels` list and then — instead of failing with a
`NoCandidates` error — violates its own
`assert(!valid_kernels.empty())` and reads `valid_kernels[0]` out of
bounds (modelled as `none`). -/
theorem heuristicInit_accesses_empty_candidate_list :
    computeValidKernels envNoSupp .half pHalfW = [] ∧
    PerformanceConfigHipImplicitGemmGroupFwdXdlops.default.HeuristicInit
      envNoSupp pHalfW = none :=
  ⟨rfl, rfl⟩

/-- Claim C4: if two performance configurations compare equal under the
solver's `operator==` (which compares `kernel_id`), their serialized forms
are identical. -/
theorem configEq_implies_serialize_eq
    (c1 c2 : PerformanceConfigHipImplicitGemmGroupFwdXdlops)
    (h : c1.eqOp c2 = true) : c1.serialize = c2.serialize := by
  unfold PerformanceConfigHipImplicitGemmGroupFwdXdlops.eqOp at h
  unfold PerformanceConfigHipImplicitGemmGroupFwdXdlops.serialize
  exact eq_of_beq h

/-- Witness for C4: two distinct configurations sharing a `kernel_id`
compare equal and serialize identically. -/
theorem configEq_implies_serialize_eq_witness :
    PerformanceConfigHipImplicitGemmGroupFwdXdlops.serialize
        ⟨0, "instA", ["instA"]⟩ =
      PerformanceConfigHipImplicitGemmGroupFwdXdlops.serialize
        ⟨1, "instA", ["instA", "instB"]⟩ :=
  configEq_implies_serialize_eq ⟨0, "instA", ["instA"]⟩
    ⟨1, "instA", ["instA", "instB"]⟩ (by decide)

/-- Characterization of `runPreloads`: the flag is set exactly after the
first call (and stays set), and the preload action runs zero times from an
already-started state and exactly `min n 1` times from a fresh state. -/
theorem runPreloads_spec (s : DbPreloadStates) (n : Nat) :
    runPreloads s n =
      (⟨s.started_loading || decide (0 < n)⟩,
       if s.started_loading then 0 else min n 1) := by
  induction n with
  | zero => cases s with | mk b => cases b <;> simp [runPreloads]
  | succ n ih =>
      cases s with
      | mk b =>
          cases b <;> cases n <;>
            simp_all [runPreloads, TryStartPreloadingDbs]

/-- Claim C6: over every sequence of `TryStartPreloadingDbs` calls on the
same (freshly constructed) `DbPreloadStates` instance the preload action
is invoked at most once, and the one-shot `started_loading` flag, once
true, never reverts to false under any further calls. -/
theorem tryStartPreloadingDbs_once_and_monotone :
    (∀ n : Nat, (runPreloads ⟨false⟩ n).2 ≤ 1) ∧
    (∀ (s : DbPreloadStates) (n : Nat), s.started_loading = true →
      (runPreloads s n).1.started_loading = true) := by
  constructor
  · intro n
    rw [runPreloads_spec]
    simp
  · intro s n h
    rw [runPreloads_spec, h]
    simp

/-- Witness for C6: three calls from a fresh state invoke the action at
most once, and two further calls from a started state leave the flag
set. -/
theorem tryStartPreloadingDbs_once_and_monotone_witness :
    (runPreloads ⟨false⟩ 3).2 ≤ 1 ∧
    (runPreloads ⟨true⟩ 2).1.started_loading = true :=
  ⟨tryStartPreloadingDbs_once_and_monotone.1 3,
   tryStartPreloadingDbs_once_and_monotone.2 ⟨true⟩ 2 rfl⟩

/-- Claim C7: two autotune searches run sequentially on identical inputs —
the same problem, backing-library environment, validity predicate and
measured trial costs — return the same winning candidate.  (In this
embedding the search is a pure function of those inputs, with
deterministic strict-less-than tie-breaking, so any two runs agree.) -/
theorem search_deterministic (env : CKEnv) (problem : ConvProblem)
    (validOf : PerformanceConfigHipImplicitGemmGroupFwdXdlops → Bool)
    (trialCost : PerformanceConfigHipImplicitGemmGroupFwdXdlops → Option Nat)
    (r1 r2 : Option PerformanceConfigHipImplicitGemmGroupFwdXdlops)
    (h1 : r1 = ConvHipImplicitGemmGroupFwdXdlops.Search env problem validOf trialCost)
    (h2 : r2 = ConvHipImplicitGemmGroupFwdXdlops.Search env problem validOf trialCost) :
    r1 = r2 :=
  h1.trans h2.symm

/-- Witness for C7: two concrete sequential runs on the same inputs
coincide. -/
theorem search_deterministic_witness :
    ConvHipImplicitGemmGroupFwdXdlops.Search envW pHalfW (fun _ => true)
        (fun _ => some 1) =
      ConvHipImplicitGemmGroupFwdXdlops.Search envW pHalfW (fun _ => true)
        (fun _ => some 1) :=
  search_deterministic envW pHalfW (fun _ => true) (fun _ => some 1)
    (ConvHipImplicitGemmGroupFwdXdlops.Search envW pHalfW (fun _ => true)
      (fun _ => some 1))
    (ConvHipImplicitGemmGroupFwdXdlops.Search envW pHalfW (fun _ => true)
      (fun _ => some 1))
    rfl rfl

/-- Claim C8: for a cat problem with between 1 and 8 input tensors,
`CatForward::GetSolution` selects `Cat2FwdPacked` for at most 2 tensors,
`Cat4FwdPacked` for 3-4 tensors, and `Cat8FwdPacked` for 5-8 tensors (the
fusion width being the least power of two that is at least the tensor
count and at least 2). -/
theorem catFwd_kernel_selection (x : Nat) (h1 : 1 ≤ x) (h2 : x ≤ 8) :
    catFwdKernelName x =
      if x ≤ 2 then "Cat2FwdPacked"
      else if x ≤ 4 then "Cat4FwdPacked"
      else "Cat8FwdPacked" := by
  interval_cases x <;> rfl

/-- Witness for C8: five tensors select the eight-way fused kernel. -/
theorem catFwd_kernel_selection_witness :
    catFwdKernelName 5 =
      if 5 ≤ 2 then "Cat2FwdPacked"
      else if 5 ≤ 4 then "Cat4FwdPacked"
      else "Cat8FwdPacked" :=
  catFwd_kernel_selection 5 (by decide) (by decide)

/-- Helper: `Init` on a default-constructed configuration, when at least
one instance is supported, seeds index 0 with the first supported
kernel. -/
theorem init_default_eq (env : CKEnv) (dt : DataType) (problem : ConvProblem)
    (hne : computeValidKernels env dt problem ≠ []) :
    PerformanceConfigHipImplicitGemmGroupFwdXdlops.default.Init env dt problem =
      some { index := 0,
             kernel_id := (computeValidKernels env dt problem).getD 0 "",
             valid_kernels := computeValidKernels env dt problem } := by
  unfold PerformanceConfigHipImplicitGemmGroupFwdXdlops.Init
  cases hl : computeValidKernels env dt problem with
  | nil => exact absurd hl hne
  | cons k0 tl =>
      simp [PerformanceConfigHipImplicitGemmGroupFwdXdlops.default, hl]

/-- Helper: `HeuristicInit` on a default-constructed configuration, when
the problem admits a non-empty heuristic kernel list, seeds index 0 with
its first entry. -/
theorem heuristicInit_default_eq (env : CKEnv) (problem : ConvProblem)
    (hne : heuristicKernels env problem ≠ []) :
    PerformanceConfigHipImplicitGemmGroupFwdXdlops.default.HeuristicInit
        env problem =
      some { index := 0,
             kernel_id := (heuristicKernels env problem).getD 0 "",
             valid_kernels := heuristicKernels env problem } := by
  unfold PerformanceConfigHipImplicitGemmGroupFwdXdlops.HeuristicInit
  unfold heuristicKernels at hne ⊢
  cases hdt : problem.inDataType <;> simp only [hdt] at hne ⊢
  case half => exact init_default_eq env .half problem hne
  case float => exact init_default_eq env .float problem hne
  all_goals exact absurd rfl hne

/-- Helper: the first `SetNextValue` call on a default-constructed
configuration, for a problem with a non-empty heuristic kernel list,
returns `true` and lands on the first heuristic kernel. -/
theorem setNextValue_default_eq (env : CKEnv) (problem : ConvProblem)
    (hne : heuristicKernels env problem ≠ []) :
    PerformanceConfigHipImplicitGemmGroupFwdXdlops.default.SetNextValue
        env problem =
      some (true,
        { index := 0,
          kernel_id := (heuristicKernels env problem).getD 0 "",
          valid_kernels := heuristicKernels env problem }) := by
  unfold PerformanceConfigHipImplicitGemmGroupFwdXdlops.SetNextValue
  rw [heuristicInit_default_eq env problem hne]
  rfl

/-- Helper: the state reached after `k + 1` calls to `SetNextValue` from
the default configuration, for a problem with a non-empty heuristic kernel
list, is index `k` on that list. -/
theorem iterState_eq (env : CKEnv) (problem : ConvProblem)
    (hne : heuristicKernels env problem ≠ []) (k : Nat)
    (hk : k < (heuristicKernels env problem).length) :
    iterState env problem (k + 1) =
      some { index := k,
             kernel_id := (heuristicKernels env problem).getD k "",
             valid_kernels := heuristicKernels env problem } := by
  induction k with
  | zero =>
      show iterState env problem 1 = _
      simp [iterState, setNextValue_default_eq env problem hne]
  | succ k ih =>
      have hk1 : k < (heuristicKernels env problem).length :=
        Nat.lt_of_succ_lt hk
      unfold iterState
      rw [ih hk1]
      simp [PerformanceConfigHipImplicitGemmGroupFwdXdlops.SetNextValue,
        List.isEmpty_eq_false.mpr hne, hk]

/-- Claim C2 (amended): for every problem whose heuristic initialization
yields a non-empty `valid_kernels` list, the calls to `SetNextValue`
starting from a freshly default-constructed configuration visit every
entry of `valid_kernels` (as `kernel_id`) exactly once and in order — the
`(k+1)`-st call returns `true` and lands on entry `k` — and the very next
call after the last entry returns `false`. -/
theorem setNextValue_enumerates (env : CKEnv) (problem : ConvProblem)
    (hne : heuristicKernels env problem ≠ []) :
    (∀ k, k < (heuristicKernels env problem).length →
      callResult env problem k = some true ∧
      (iterState env problem (k + 1)).map
          PerformanceConfigHipImplicitGemmGroupFwdXdlops.kernel_id =
        (heuristicKernels env problem)[k]?) ∧
    callResult env problem (heuristicKernels env problem).length =
      some false := by
  constructor
  · intro k hk
    constructor
    · cases k with
      | zero =>
          simp [callResult, iterState,
            setNextValue_default_eq env problem hne]
      | succ j =>
          have hj : j < (heuristicKernels env problem).length :=
            Nat.lt_of_succ_lt hk
          unfold callResult
          rw [iterState_eq env problem hne j hj]
          simp [PerformanceConfigHipImplicitGemmGroupFwdXdlops.SetNextValue,
            List.isEmpty_eq_false.mpr hne, hk]
    · rw [iterState_eq env problem hne k hk,
        List.getElem?_eq_getElem hk]
      show some ((heuristicKernels env problem).getD k "") = _
      rw [List.getD_eq_getElem _ _ hk]
  · have hpos : 0 < (heuristicKernels env problem).length :=
      List.length_pos.mpr hne
    obtain ⟨m, hm⟩ : ∃ m, (heuristicKernels env problem).length = m + 1 :=
      ⟨(heuristicKernels env problem).length - 1, by omega⟩
    have hmlt : m < (heuristicKernels env problem).length := by omega
    unfold callResult
    rw [hm, iterState_eq env problem hne m hmlt]
    simp [PerformanceConfigHipImplicitGemmGroupFwdXdlops.SetNextValue,
      List.isEmpty_eq_false.mpr hne, hm]

/-- Witness for C2 (amended): with two supported instances, the first two
calls return `true` visiting `instA` then `instB`, and the third call
returns `false`. -/
theorem setNextValue_enumerates_witness :
    ((∀ k, k < (heuristicKernels envW pHalfW).length →
      callResult envW pHalfW k = some true ∧
      (iterState envW pHalfW (k + 1)).map
          PerformanceConfigHipImplicitGemmGroupFwdXdlops.kernel_id =
        (heuristicKernels envW pHalfW)[k]?) ∧
    callResult envW pHalfW (heuristicKernels envW pHalfW).length =
      some false) :=
  setNextValue_enumerates envW pHalfW (by decide)

/-- Counterexample for C2 as stated: on a problem whose input data type
(int8) is handled by no heuristic branch, `valid_kernels` stays empty (so
there are no entries to visit and the first call already ought to report
"no more"), yet every call to `SetNextValue` returns `true` and the
iteration never terminates. -/
theorem setNextValue_never_terminates_on_int8 :
    heuristicKernels envE pInt8 = [] ∧
    (∀ n : Nat, callResult envE pInt8 n = some true) := by
  refine ⟨rfl, ?_⟩
  have hstate : ∀ m, iterState envE pInt8 m =
      some PerformanceConfigHipImplicitGemmGroupFwdXdlops.default := by
    intro m
    induction m with
    | zero => rfl
    | succ m ih =>
        unfold iterState
        rw [ih]
        rfl
  intro n
  unfold callResult
  rw [hstate n]
  rfl

/-- Claim C5: whenever a generic structural check fails (input/weights/
output data types not all equal, direction not forward, problem not 2-d,
or layout not NHWC), `ConvHipImplicitGemmGroupFwdXdlops::IsApplicable`
evaluates to `false` without reaching the architecture allow-list
comparison or the backing-library support query. -/
theorem isApplicable_structural_checks_first (env : CKEnv)
    (ctx : ConvContext) (problem : ConvProblem)
    (h : ¬(problem.inDataType = problem.weightsDataType ∧
           problem.weightsDataType = problem.outDataType ∧
           problem.inDataType = problem.outDataType) ∨
         problem.isForward = false ∨ problem.is2d = false ∨
         problem.isLayoutNHWC = false) :
    ConvHipImplicitGemmGroupFwdXdlops.IsApplicableTraced env ctx problem =
      { result := false, archQueried := false, ckQueried := false } := by
  unfold ConvHipImplicitGemmGroupFwdXdlops.IsApplicableTraced
  repeat' split
  all_goals first | rfl | tauto

/-- Witness for C5: a problem failing only the 2-d check is rejected with
neither the architecture comparison nor the library query reached. -/
theorem isApplicable_structural_checks_first_witness :
    ConvHipImplicitGemmGroupFwdXdlops.IsApplicableTraced envW ctxW pNot2d =
      { result := false, archQueried := false, ckQueried := false } :=
  isApplicable_structural_checks_first envW ctxW pNot2d
    (Or.inr (Or.inr (Or.inl rfl)))

/-- Claim C9: `IsApplicable` returns `true` only when the device is
gfx908 or gfx90a, the data types are all equal and the input type is half
or float, and both adjusted convolution strides equal 1; moreover
`CheckCKApplicability` returns `false` for every problem with a non-unit
adjusted stride. -/
theorem isApplicable_only_if (env : CKEnv) (ctx : ConvContext)
    (problem : ConvProblem) :
    (ConvHipImplicitGemmGroupFwdXdlops.IsApplicable env ctx problem = true →
      (ctx.deviceName = "gfx908" ∨ ctx.deviceName = "gfx90a") ∧
      (problem.inDataType = problem.weightsDataType ∧
       problem.weightsDataType = problem.outDataType) ∧
      (problem.inDataType = DataType.half ∨
       problem.inDataType = DataType.float) ∧
      problem.adjStrideH = 1 ∧ problem.adjStrideW = 1) ∧
    (∀ (dt : DataType) (q : ConvProblem),
      (q.adjStrideH ≠ 1 ∨ q.adjStrideW ≠ 1) →
      ConvHipImplicitGemmGroupFwdXdlops.CheckCKApplicability env dt q =
        false) := by
  have hck : ∀ (dt : DataType) (q : ConvProblem),
      (q.adjStrideH ≠ 1 ∨ q.adjStrideW ≠ 1) →
      ConvHipImplicitGemmGroupFwdXdlops.CheckCKApplicability env dt q =
        false := by
    intro dt q hq
    unfold ConvHipImplicitGemmGroupFwdXdlops.CheckCKApplicability
    split
    · rfl
    · tauto
  refine ⟨?_, hck⟩
  intro h
  have hstr : ∀ dt : DataType,
      ConvHipImplicitGemmGroupFwdXdlops.CheckCKApplicability env dt problem =
        true →
      problem.adjStrideH = 1 ∧ problem.adjStrideW = 1 := by
    intro dt hc
    unfold ConvHipImplicitGemmGroupFwdXdlops.CheckCKApplicability at hc
    split at hc
    · exact absurd hc (by simp)
    · tauto
  unfold ConvHipImplicitGemmGroupFwdXdlops.IsApplicable
    ConvHipImplicitGemmGroupFwdXdlops.IsApplicableTraced at h
  repeat' split at h
  all_goals simp at h
  all_goals exact ⟨by tauto, by tauto, by tauto, hstr _ h⟩

/-- Witness for C9: a unit-stride half problem on gfx908 passes
`IsApplicable`, and a stride-2 problem is rejected by the library
query. -/
theorem isApplicable_only_if_witness :
    ((ctxW.deviceName = "gfx908" ∨ ctxW.deviceName = "gfx90a") ∧
     (pHalfW.inDataType = pHalfW.weightsDataType ∧
      pHalfW.weightsDataType = pHalfW.outDataType) ∧
     (pHalfW.inDataType = DataType.half ∨
      pHalfW.inDataType = DataType.float) ∧
     pHalfW.adjStrideH = 1 ∧ pHalfW.adjStrideW = 1) ∧
    ConvHipImplicitGemmGroupFwdXdlops.CheckCKApplicability envW DataType.half
      pStride2 = false :=
  ⟨(isApplicable_only_if envW ctxW pHalfW).1 (by decide),
   (isApplicable_only_if envW ctxW pHalfW).2 DataType.half pStride2
     (Or.inl (by decide))⟩

/-- Claim C10 (amended): every `SetNextValue` call that returns `true`
and leaves a non-empty `valid_kernels` list puts the configuration into a
state satisfying `IsValidValue` — the index is strictly below the size of
`valid_kernels` and `kernel_id` is the entry at the index; since this
holds for an arbitrary incoming configuration, it is preserved by every
subsequent `true`-returning call. -/
theorem setNextValue_true_establishes_invariant (env : CKEnv)
    (problem : ConvProblem)
    (c c' : PerformanceConfigHipImplicitGemmGroupFwdXdlops)
    (h : c.SetNextValue env problem = some (true, c'))
    (hne : c'.valid_kernels ≠ []) :
    c'.IsValidValue = true ∧
    c'.valid_kernels[c'.index]? = some c'.kernel_id := by
  unfold PerformanceConfigHipImplicitGemmGroupFwdXdlops.SetNextValue at h
  split at h
  · rename_i hemp
    cases hh : c.HeuristicInit env problem with
    | none => rw [hh] at h; simp at h
    | some c2 =>
        rw [hh] at h
        simp at h
        subst h
        unfold PerformanceConfigHipImplicitGemmGroupFwdXdlops.HeuristicInit
          at hh
        split at hh
        · unfold PerformanceConfigHipImplicitGemmGroupFwdXdlops.Init at hh
          split at hh
          · exact absurd hh (by simp)
          · rw [Option.some_inj] at hh
            subst hh
            simp [PerformanceConfigHipImplicitGemmGroupFwdXdlops.IsValidValue]
        · unfold PerformanceConfigHipImplicitGemmGroupFwdXdlops.Init at hh
          split at hh
          · exact absurd hh (by simp)
          · rw [Option.some_inj] at hh
            subst hh
            simp [PerformanceConfigHipImplicitGemmGroupFwdXdlops.IsValidValue]
        · rw [Option.some_inj] at hh
          subst hh
          exact absurd (List.isEmpty_iff.mp hemp) hne
  · split at h
    · rename_i hlt
      simp only [Option.some_inj, Prod.mk.injEq, true_and] at h
      subst h
      constructor
      · simp [PerformanceConfigHipImplicitGemmGroupFwdXdlops.IsValidValue, hlt]
      · show c.valid_kernels[c.index + 1]? = _
        rw [List.getElem?_eq_getElem hlt, List.getD_eq_getElem _ _ hlt]
    · simp at h

/-- Witness for C10 (amended): advancing from the first to the second of
two valid kernels yields a state satisfying the invariant. -/
theorem setNextValue_true_establishes_invariant_witness :
    (⟨1, "instB", ["instA", "instB"]⟩ :
        PerformanceConfigHipImplicitGemmGroupFwdXdlops).IsValidValue =
      true ∧
    (⟨1, "instB", ["instA", "instB"]⟩ :
        PerformanceConfigHipImplicitGemmGroupFwdXdlops).valid_kernels[
          (⟨1, "instB", ["instA", "instB"]⟩ :
            PerformanceConfigHipImplicitGemmGroupFwdXdlops).index]? =
      some (⟨1, "instB", ["instA", "instB"]⟩ :
        PerformanceConfigHipImplicitGemmGroupFwdXdlops).kernel_id :=
  setNextValue_true_establishes_invariant envW pHalfW
    ⟨0, "instA", ["instA", "instB"]⟩ ⟨1, "instB", ["instA", "instB"]⟩
    rfl (by decide)

/-- Counterexample for C10 as stated: on a problem whose input data type
(double) is handled by no heuristic branch, `SetNextValue` returns `true`
while leaving the configuration in a state violating `IsValidValue` (the
index 0 is not strictly below the size 0 of the empty `valid_kernels`). -/
theorem setNextValue_true_without_invariant_on_double :
    PerformanceConfigHipImplicitGemmGroupFwdXdlops.default.SetNextValue
        envE pDouble =
      some (true, PerformanceConfigHipImplicitGemmGroupFwdXdlops.default) ∧
    PerformanceConfigHipImplicitGemmGroupFwdXdlops.default.IsValidValue =
      false :=
  ⟨rfl, rfl⟩
